import Mathlib

/-!
Shallow embedding of the `pacoogle/github-analizer` repository
(`src/bug_analytics.py` and `src/pr_analytics.py`).

The two scripts are synchronous reporting pipelines over the GitHub search
API.  We model the network as explicit functions: a search server is a
function from a page number to the response the server gives for that page,
and a review endpoint is a function from a URL to its response.  Python
dictionaries coming from JSON are modelled as records; a JSON value that
the code reads with a falsy default (missing key, `null`, or `""`) is
modelled as `""` (respectively `none` for the `pull_request` sub-object,
whose truthiness the code tests explicitly).  `sys.exit(1)` is modelled as
an `Except.error` result, and the unbounded `while True:` pagination loops
take a fuel argument: `none` means the loop did not finish within the given
fuel.  Strings are handled through their character lists so that every
definition evaluates by kernel reduction; Python's `str.lower` is modelled
on ASCII letters, which is faithful for every comparison the code performs
(all against the ASCII literal `"bug"`).
-/

namespace GithubAnalizer

/-- Python `s.split(sep)` on character lists (single-character separator):
always returns a non-empty list of (possibly empty) segments. -/
def splitOnChar (sep : Char) : List Char → List (List Char)
  | [] => [[]]
  | c :: cs =>
    let rest := splitOnChar sep cs
    if c == sep then
      [] :: rest
    else
      match rest with
      | [] => [[c]]
      | seg :: segs => (c :: seg) :: segs

/-- Python `s.split("/")[-1]`: last segment of a `/`-separated string. -/
def lastSegment (s : String) : String :=
  String.mk ((splitOnChar '/' s.data).getLastD [])

/-- ASCII lower-casing of one character (Python `str.lower`, restricted to
the ASCII range, which is all the code ever compares against). -/
def pyLowerChar (c : Char) : Char :=
  if 65 ≤ c.toNat && c.toNat ≤ 90 then Char.ofNat (c.toNat + 32) else c

/-- Python `s.lower()` (ASCII). -/
def pyLower (s : String) : String :=
  String.mk (s.data.map pyLowerChar)

/-- Python `s.rstrip("/")`. -/
def rstripSlash (s : String) : String :=
  String.mk ((s.data.reverse.dropWhile (fun c => c == '/')).reverse)

/-- Python truthiness of an `a or b` on strings: `b` if `a` is empty. -/
def pyOr (a b : String) : String :=
  if a == "" then b else a

/-- Python truthiness of an optional string: falsy iff absent or empty. -/
def pyFalsyOpt : Option String → Bool
  | none => true
  | some s => s == ""

/-- Numeric value of a digit string (Python `int` on the matched group). -/
def digitsToNat (l : List Char) : Nat :=
  l.foldl (fun n c => n * 10 + (c.toNat - 48)) 0

/-- All characters are ASCII decimal digits. -/
def allDigits (l : List Char) : Bool :=
  l.all fun c => 48 ≤ c.toNat && c.toNat ≤ 57

/-! ## Data model

A `SearchItem` is one element of the `items` array returned by
`GET /search/issues`; the fields are exactly the keys the two scripts
read.  String-valued keys read with a falsy default are plain `String`
(empty string models a missing or `null` value). -/

structure Label where
  name : String
  deriving DecidableEq, Repr

structure PullRequestInfo where
  url : String
  merged_at : String
  deriving DecidableEq, Repr

structure SearchItem where
  number : Nat
  title : String
  html_url : String
  repository_url : String
  state : String
  created_at : String
  closed_at : String
  labels : List Label
  pull_request : Option PullRequestInfo
  deriving DecidableEq, Repr

/-- One response of the search endpoint (HTTP status plus decoded
`items` array). -/
structure SearchResp where
  status : Nat
  items : List SearchItem
  deriving DecidableEq, Repr

/-- The fatal failures of the paginated fetchers (`sys.exit(1)`). -/
inductive FetchErr where
  | rateLimitOrForbidden : FetchErr
  | httpStatus : Nat → FetchErr
  deriving DecidableEq, Repr

/-- Result of a completed pagination loop: accumulated items plus the
number of requests that were issued. -/
structure FetchOutcome where
  items : List SearchItem
  requests : Nat
  deriving DecidableEq, Repr

/-! ## Session builder (`get_github_session`, identical in both scripts
except for the user-agent string) -/

structure GithubSession where
  authorization : String
  accept : String
  apiVersion : String
  userAgent : String
  deriving DecidableEq, Repr

def missingTokenMsg : String :=
  "devi impostare la variabile d'ambiente GITHUB_TOKEN o passare il token con --token"

/-- Embeds `get_github_session` (src/bug_analytics.py lines 19-40 and
src/pr_analytics.py lines 19-40): a falsy explicit token falls back to the
`GITHUB_TOKEN` environment variable; if that is also falsy the process
exits (modelled as `Except.error`). -/
def get_github_session (token : Option String) (envGithubToken : Option String)
    (userAgent : String) : Except String GithubSession :=
  let token := if pyFalsyOpt token then envGithubToken else token
  if pyFalsyOpt token then
    Except.error missingTokenMsg
  else
    Except.ok
      { authorization := "Bearer " ++ token.getD ""
        accept := "application/vnd.github+json"
        apiVersion := "2022-11-28"
        userAgent := userAgent }

/-! ## Date validation (`validate_date`, identical in both scripts)

`datetime.strptime(date_string, "%Y-%m-%d")` matches the CPython
`_strptime` regex `(?P<Y>\d\d\d\d)-(?P<m>1[0-2]|0[1-9]|[1-9])-`
`(?P<d>3[01]|[12]\d|0[1-9]|[1-9])` against the whole string and then
builds a `datetime`, which additionally requires
`MINYEAR = 1 <= year <= MAXYEAR = 9999` and the day to exist in the given
month and year.  Note the month and day groups also accept single-digit
values without a leading zero. -/

def isLeapYear (y : Nat) : Bool :=
  y % 4 == 0 && (y % 100 != 0 || y % 400 == 0)

def daysInMonth (y m : Nat) : Nat :=
  if m == 2 then (if isLeapYear y then 29 else 28)
  else if m == 4 || m == 6 || m == 9 || m == 11 then 30
  else 31

/-- Validity check performed by the `datetime` constructor. -/
def pyDatetimeValid (y m d : Nat) : Bool :=
  1 ≤ y && y ≤ 9999 && 1 ≤ m && m ≤ 12 && 1 ≤ d && d ≤ daysInMonth y m

/-- The `%Y` group: exactly four digits. -/
def yearFieldOk (l : List Char) : Bool :=
  l.length == 4 && allDigits l

/-- The `%m` group `1[0-2]|0[1-9]|[1-9]`: one or two digits with value
1..12. -/
def monthFieldOk (l : List Char) : Bool :=
  allDigits l && (l.length == 1 || l.length == 2)
    && 1 ≤ digitsToNat l && digitsToNat l ≤ 12

/-- The `%d` group `3[01]|[12]\d|0[1-9]|[1-9]`: one or two digits with
value 1..31. -/
def dayFieldOk (l : List Char) : Bool :=
  allDigits l && (l.length == 1 || l.length == 2)
    && 1 ≤ digitsToNat l && digitsToNat l ≤ 31

/-- Whether `datetime.strptime(s, "%Y-%m-%d")` succeeds. -/
def strptimeYmd (s : String) : Bool :=
  match splitOnChar '-' s.data with
  | [y, m, d] =>
    yearFieldOk y && monthFieldOk m && dayFieldOk d
      && pyDatetimeValid (digitsToNat y) (digitsToNat m) (digitsToNat d)
  | _ => false

/-- Embeds `validate_date` (src/bug_analytics.py lines 43-49 and
src/pr_analytics.py lines 43-49): returns the input unchanged on success,
raises `click.BadParameter` (modelled as `Except.error`) otherwise. -/
def validate_date (s : String) : Except String String :=
  if strptimeYmd s then Except.ok s
  else Except.error ("Data non valida: " ++ s ++ ". Usa il formato YYYY-MM-DD")

/-- Stated from the specification's words, for comparison with the code:
a date string in the strict `YYYY-MM-DD` format — four-digit year,
two-digit month, two-digit day, hyphen-separated, denoting a valid
calendar date (taken as a date the common-era calendar has, i.e. year at
least 1). -/
def specFormatYmd (s : String) : Bool :=
  match splitOnChar '-' s.data with
  | [y, m, d] =>
    y.length == 4 && allDigits y
      && m.length == 2 && allDigits m
      && d.length == 2 && allDigits d
      && pyDatetimeValid (digitsToNat y) (digitsToNat m) (digitsToNat d)
  | _ => false

/-! ## Pipeline 1 (`src/bug_analytics.py`) -/

namespace BugAnalytics

/-- Embeds `has_bug_label` (src/bug_analytics.py lines 52-58): some label
name equals `"bug"` after lower-casing. -/
def has_bug_label (item : SearchItem) : Bool :=
  item.labels.any fun label => pyLower label.name == "bug"

/-- The fixed page size of both fetchers. -/
def per_page : Nat := 100

/-- Embeds the shared pagination loop of `search_issues`
(src/bug_analytics.py lines 98-152) and `search_merged_prs`
(src/bug_analytics.py lines 198-252); the two `while True:` bodies are
textually identical (only the query string built beforehand differs, and
the loop never reads the query).  `server` maps a page number to the
response; the arguments after the fuel are the `page`, `all_items` and
request counters.  Note the code first breaks on an empty `items` array,
then (for the non-bug fetch, `is_bug = some false`) reassigns `items` to
the list with bug-labeled items removed, extends the accumulator, and
breaks when `len(items) < per_page` — on the reassigned list. -/
def fetchLoop (server : Nat → SearchResp) (is_bug : Option Bool) :
    Nat → Nat → List SearchItem → Nat → Option (Except FetchErr FetchOutcome)
  | 0, _, _, _ => none
  | fuel + 1, page, all_items, reqs =>
    let resp := server page
    if resp.status == 403 then
      some (Except.error FetchErr.rateLimitOrForbidden)
    else if resp.status != 200 then
      some (Except.error (FetchErr.httpStatus resp.status))
    else
      let items := resp.items
      if items.isEmpty then
        some (Except.ok { items := all_items, requests := reqs + 1 })
      else
        let items :=
          if is_bug == some false then
            items.filter fun item => !(has_bug_label item)
          else items
        let all_items := all_items ++ items
        if items.length < per_page then
          some (Except.ok { items := all_items, requests := reqs + 1 })
        else
          fetchLoop server is_bug fuel (page + 1) all_items (reqs + 1)

/-- Embeds `search_issues` (src/bug_analytics.py lines 61-157): starts the
pagination loop at page 1 with an empty accumulator. -/
def search_issues (server : Nat → SearchResp) (is_bug : Option Bool)
    (fuel : Nat) : Option (Except FetchErr FetchOutcome) :=
  fetchLoop server is_bug fuel 1 [] 0

/-- Embeds `search_merged_prs` (src/bug_analytics.py lines 160-258); its
pagination loop is identical to the one of `search_issues`. -/
def search_merged_prs (server : Nat → SearchResp) (is_bug : Option Bool)
    (fuel : Nat) : Option (Except FetchErr FetchOutcome) :=
  fetchLoop server is_bug fuel 1 [] 0

/-- Python `item.get("pull_request", {}).get("merged_at", "") if
item.get("pull_request") else ""`, the expression `format_issue`,
`format_pr` and pipeline 2's `analyze_prs` all use. -/
def mergedAtOf (item : SearchItem) : String :=
  match item.pull_request with
  | some pr => pr.merged_at
  | none => ""

/-- The flat output record shared by issues and merged PRs. -/
structure FormattedItem where
  number : Nat
  title : String
  url : String
  repo : String
  state : String
  created_at : String
  closed_at : String
  merged_at : String
  labels : List String
  deriving DecidableEq, Repr

/-- Embeds `format_issue` (src/bug_analytics.py lines 314-329). -/
def format_issue (item : SearchItem) : FormattedItem :=
  let labels := item.labels.map fun label => label.name
  let repo :=
    if item.repository_url != "" then lastSegment item.repository_url else ""
  let merged_at := mergedAtOf item
  { number := item.number
    title := item.title
    url := item.html_url
    repo := repo
    state := item.state
    created_at := item.created_at
    closed_at := pyOr merged_at item.closed_at
    merged_at := merged_at
    labels := labels }

/-- Embeds `format_pr` (src/bug_analytics.py lines 331-346): the state is
forced to `"closed"` when a merge timestamp is present, and `closed_at` is
the merge timestamp itself. -/
def format_pr (item : SearchItem) : FormattedItem :=
  let labels := item.labels.map fun label => label.name
  let repo :=
    if item.repository_url != "" then lastSegment item.repository_url else ""
  let merged_at := mergedAtOf item
  { number := item.number
    title := item.title
    url := item.html_url
    repo := repo
    state := if merged_at != "" then "closed" else item.state
    created_at := item.created_at
    closed_at := merged_at
    merged_at := merged_at
    labels := labels }

structure BucketGroup where
  aperti : List FormattedItem
  risolti : List FormattedItem
  totale_aperti : Nat
  totale_risolti : Nat
  deriving DecidableEq, Repr

structure IssueResults where
  bug : BucketGroup
  non_bug : BucketGroup
  periodo_da : String
  periodo_a : String
  deriving DecidableEq, Repr

/-- Embeds the classification part of `analyze_issues`
(src/bug_analytics.py lines 297-365).  The four list arguments are the
values the four fetch calls of lines 274-289 produced
(`bug_aperti`, `non_bug_aperti`, `bug_chiusi`, `non_bug_chiusi`). -/
def analyze_issues (bug_aperti non_bug_aperti bug_chiusi non_bug_chiusi :
    List SearchItem) (from_date to_date : String) : IssueResults :=
  let bug_aperti_filtrati :=
    bug_aperti.filter fun item => item.state == "open"
  let non_bug_aperti_filtrati :=
    non_bug_aperti.filter fun item => item.state == "open"
  { bug :=
      { aperti := bug_aperti_filtrati.map format_issue
        risolti := bug_chiusi.map format_pr
        totale_aperti := bug_aperti_filtrati.length
        totale_risolti := bug_chiusi.length }
    non_bug :=
      { aperti := non_bug_aperti_filtrati.map format_issue
        risolti := non_bug_chiusi.map format_pr
        totale_aperti := non_bug_aperti_filtrati.length
        totale_risolti := non_bug_chiusi.length }
    periodo_da := from_date
    periodo_a := to_date }

end BugAnalytics

/-! ## Pipeline 2 (`src/pr_analytics.py`) -/

namespace PrAnalytics

/-- One decoded element of a `GET <pr-url>/reviews` response; the code
reads only `r.get("state")`, whose missing-key default is `None`
(modelled as `none`). -/
structure ReviewRec where
  state : Option String
  deriving DecidableEq, Repr

/-- One response of the reviews endpoint. -/
structure ReviewResp where
  status : Nat
  body : List ReviewRec
  deriving DecidableEq, Repr

/-- Embeds the pagination loop of `search_merged_prs`
(src/pr_analytics.py lines 68-114); same shape as the pipeline-1 loop but
with no post-fetch label filtering. -/
def searchLoop (server : Nat → SearchResp) :
    Nat → Nat → List SearchItem → Nat → Option (Except FetchErr FetchOutcome)
  | 0, _, _, _ => none
  | fuel + 1, page, all_items, reqs =>
    let resp := server page
    if resp.status == 403 then
      some (Except.error FetchErr.rateLimitOrForbidden)
    else if resp.status != 200 then
      some (Except.error (FetchErr.httpStatus resp.status))
    else
      let items := resp.items
      if items.isEmpty then
        some (Except.ok { items := all_items, requests := reqs + 1 })
      else
        let all_items := all_items ++ items
        if items.length < BugAnalytics.per_page then
          some (Except.ok { items := all_items, requests := reqs + 1 })
        else
          searchLoop server fuel (page + 1) all_items (reqs + 1)

/-- Embeds `search_merged_prs` (src/pr_analytics.py lines 52-117). -/
def search_merged_prs (server : Nat → SearchResp) (fuel : Nat) :
    Option (Except FetchErr FetchOutcome) :=
  searchLoop server fuel 1 [] 0

/-- Embeds `get_reviews_for_pr` (src/pr_analytics.py lines 120-133):
one request to `pr_api_url.rstrip("/") + "/reviews"`; any non-200 status
yields the empty review list (the warning is only printed), a 200 status
yields the decoded body.  `fetchRev` maps the requested URL to the
response. -/
def get_reviews_for_pr (fetchRev : String → ReviewResp)
    (pr_api_url : String) : List ReviewRec :=
  let resp := fetchRev (rstripSlash pr_api_url ++ "/reviews")
  if resp.status != 200 then [] else resp.body

/-- The record `analyze_prs` builds for each classified pull request
(src/pr_analytics.py lines 165-171). -/
structure PrData where
  number : Nat
  title : String
  url : String
  repo : String
  merged_at : String
  deriving DecidableEq, Repr

structure PrResults where
  senza_bocciature : List PrData
  bocciate_poi_approvate : List PrData
  totale : Nat
  deriving DecidableEq, Repr

/-- The `pr_data` record of src/pr_analytics.py lines 165-171, read off
the raw item. -/
def prDataOf (item : SearchItem) : PrData :=
  { number := item.number
    title := item.title
    url := item.html_url
    repo :=
      if item.repository_url != "" then lastSegment item.repository_url else ""
    merged_at := BugAnalytics.mergedAtOf item }

/-- The per-item classification test of src/pr_analytics.py lines
160-163: the set of the states of the fetched reviews contains
`"CHANGES_REQUESTED"`. -/
def hasChangesRequested (fetchRev : String → ReviewResp)
    (item : SearchItem) : Bool :=
  match item.pull_request with
  | some prInfo =>
    (get_reviews_for_pr fetchRev prInfo.url).any
      fun r => r.state == some "CHANGES_REQUESTED"
  | none => false

/-- Embeds the loop of `analyze_prs` (src/pr_analytics.py lines 149-179):
items without a truthy `pull_request` field are skipped; otherwise the
item's reviews are fetched and the `pr_data` record is appended to the
`bocciate_poi_approvate` bucket when some review state is
`"CHANGES_REQUESTED"`, to `senza_bocciature` otherwise. -/
def analyzeLoop (fetchRev : String → ReviewResp) :
    List SearchItem → List PrData → List PrData → PrResults
  | [], senza_bocciature, bocciate_poi_approvate =>
    { senza_bocciature := senza_bocciature
      bocciate_poi_approvate := bocciate_poi_approvate
      totale := senza_bocciature.length + bocciate_poi_approvate.length }
  | item :: rest, senza_bocciature, bocciate_poi_approvate =>
    match item.pull_request with
    | none => analyzeLoop fetchRev rest senza_bocciature bocciate_poi_approvate
    | some prInfo =>
      let reviews := get_reviews_for_pr fetchRev prInfo.url
      let has_changes_requested :=
        reviews.any fun r => r.state == some "CHANGES_REQUESTED"
      let pr_data := prDataOf item
      if has_changes_requested then
        analyzeLoop fetchRev rest senza_bocciature
          (bocciate_poi_approvate ++ [pr_data])
      else
        analyzeLoop fetchRev rest (senza_bocciature ++ [pr_data])
          bocciate_poi_approvate

/-- Embeds `analyze_prs` (src/pr_analytics.py lines 136-185): the
`totale` of the returned dictionary is the sum of the two bucket
lengths. -/
def analyze_prs (fetchRev : String → ReviewResp) (items : List SearchItem) :
    PrResults :=
  analyzeLoop fetchRev items [] []

end PrAnalytics

/-! ## Concrete data used by counterexamples and witnesses -/

/-- An item with no labels and no `pull_request` field. -/
def plainItem : SearchItem :=
  { number := 1, title := "t", html_url := "", repository_url := "",
    state := "open", created_at := "", closed_at := "", labels := [],
    pull_request := none }

/-- An item carrying a lowercase `bug` label. -/
def bugItem : SearchItem :=
  { plainItem with number := 2, labels := [{ name := "bug" }] }

/-- An item carrying an uppercase `BUG` label. -/
def itemBugUpper : SearchItem :=
  { plainItem with number := 3, labels := [{ name := "BUG" }] }

/-- A closed item with a native close timestamp and no merge
timestamp. -/
def itemClosedNoMerge : SearchItem :=
  { plainItem with
    number := 4
    state := "closed"
    closed_at := "2024-01-02T00:00:00Z" }

/-- An item carrying a `pull_request` field. -/
def itemWithPr : SearchItem :=
  { plainItem with
    number := 5
    state := "closed"
    pull_request :=
      some { url := "https://api.github.com/repos/acme/widget/pulls/5",
             merged_at := "2024-01-03T00:00:00Z" } }

/-- A review endpoint that always fails with 404. -/
def reviewsAlways404 : String → PrAnalytics.ReviewResp :=
  fun _ => { status := 404, body := [] }

/-- A review endpoint that always answers 200 with no reviews. -/
def reviewsAlwaysEmpty : String → PrAnalytics.ReviewResp :=
  fun _ => { status := 200, body := [] }

/-- A search server for the pipeline-1 non-bug fetch: page 1 holds 100
items of which exactly one is bug-labeled, page 2 holds one more item,
later pages are empty. -/
def serverOneBugThenMore : Nat → SearchResp := fun page =>
  if page == 1 then
    { status := 200, items := bugItem :: List.replicate 99 plainItem }
  else if page == 2 then { status := 200, items := [plainItem] }
  else { status := 200, items := [] }

/-- A search server answering pages of sizes 100, 100, 37. -/
def serverPages100_100_37 : Nat → SearchResp := fun page =>
  if page == 1 then { status := 200, items := List.replicate 100 plainItem }
  else if page == 2 then { status := 200, items := List.replicate 100 bugItem }
  else if page == 3 then { status := 200, items := List.replicate 37 plainItem }
  else { status := 200, items := [] }

/-- A search server whose first page is empty with status 200. -/
def serverEmptyFirstPage : Nat → SearchResp := fun _ =>
  { status := 200, items := [] }

/-- A search server with one short page holding a bug item and a plain
item. -/
def serverBugAndPlain : Nat → SearchResp := fun page =>
  if page == 1 then { status := 200, items := [bugItem, plainItem] }
  else { status := 200, items := [] }

/-! ## Helper lemmas -/

lemma daysInMonth_le_31 (y m : Nat) : daysInMonth y m ≤ 31 := by
  unfold daysInMonth
  split
  · split <;> omega
  · split <;> omega

lemma strict_implies_strptime (s : String) (h : specFormatYmd s = true) :
    strptimeYmd s = true := by
  unfold specFormatYmd at h
  unfold strptimeYmd
  rcases hsplit : splitOnChar '-' s.data with _ | ⟨y, _ | ⟨m, _ | ⟨d, _ | ⟨e, rest⟩⟩⟩⟩ <;>
    rw [hsplit] at h
  · simp at h
  · simp at h
  · simp at h
  · replace h :
        (y.length == 4 && allDigits y && (m.length == 2) && allDigits m
          && (d.length == 2) && allDigits d
          && pyDatetimeValid (digitsToNat y) (digitsToNat m) (digitsToNat d))
          = true := h
    show (yearFieldOk y && monthFieldOk m && dayFieldOk d
        && pyDatetimeValid (digitsToNat y) (digitsToNat m) (digitsToNat d))
        = true
    have hvalid :
        pyDatetimeValid (digitsToNat y) (digitsToNat m) (digitsToNat d)
          = true := by
      simp only [Bool.and_eq_true] at h
      exact h.2
    have hbounds := hvalid
    simp only [pyDatetimeValid, Bool.and_eq_true, decide_eq_true_eq] at hbounds
    simp only [Bool.and_eq_true, beq_iff_eq] at h
    have hdm : digitsToNat d ≤ daysInMonth (digitsToNat y) (digitsToNat m) := by
      tauto
    have hd31 : digitsToNat d ≤ 31 :=
      le_trans hdm (daysInMonth_le_31 (digitsToNat y) (digitsToNat m))
    simp only [yearFieldOk, monthFieldOk, dayFieldOk, Bool.and_eq_true,
      beq_iff_eq, Bool.or_eq_true, decide_eq_true_eq, hvalid]
    tauto
  · simp at h

lemma repo_if_eq_lastSegment (u : String) :
    (if u != "" then lastSegment u else "") = lastSegment u := by
  by_cases h : u = ""
  · subst h; rfl
  · simp [h]

lemma length_filter_split {α : Type} (p q : α → Bool) (l : List α) :
    (l.filter fun a => p a && !(q a)).length
        + (l.filter fun a => p a && q a).length
      = (l.filter p).length := by
  induction l with
  | nil => rfl
  | cons a t ih =>
    cases hp : p a <;> cases hq : q a <;>
      simp [List.filter_cons, hp, hq] <;> omega

lemma analyzeLoop_eq (fetchRev : String → PrAnalytics.ReviewResp)
    (items : List SearchItem) (senza bocc : List PrAnalytics.PrData) :
    PrAnalytics.analyzeLoop fetchRev items senza bocc =
      { senza_bocciature :=
          senza ++ (items.filter fun item =>
            item.pull_request.isSome
              && !(PrAnalytics.hasChangesRequested fetchRev item)).map
            PrAnalytics.prDataOf
        bocciate_poi_approvate :=
          bocc ++ (items.filter fun item =>
            item.pull_request.isSome
              && PrAnalytics.hasChangesRequested fetchRev item).map
            PrAnalytics.prDataOf
        totale :=
          (senza ++ (items.filter fun item =>
            item.pull_request.isSome
              && !(PrAnalytics.hasChangesRequested fetchRev item)).map
            PrAnalytics.prDataOf).length
          + (bocc ++ (items.filter fun item =>
            item.pull_request.isSome
              && PrAnalytics.hasChangesRequested fetchRev item).map
            PrAnalytics.prDataOf).length } := by
  induction items generalizing senza bocc with
  | nil => simp [PrAnalytics.analyzeLoop]
  | cons item rest ih =>
    cases hpr : item.pull_request with
    | none =>
      simp only [PrAnalytics.analyzeLoop, hpr]
      rw [ih]
      simp [List.filter_cons, hpr]
    | some prInfo =>
      simp only [PrAnalytics.analyzeLoop, hpr]
      have hcr :
          ((PrAnalytics.get_reviews_for_pr fetchRev prInfo.url).any
            fun r => r.state == some "CHANGES_REQUESTED")
            = PrAnalytics.hasChangesRequested fetchRev item := by
        simp [PrAnalytics.hasChangesRequested, hpr]
      rw [hcr]
      cases hb : PrAnalytics.hasChangesRequested fetchRev item <;>
        simp only [Bool.false_eq_true, if_false, if_true, ite_true, ite_false] <;>
        rw [ih] <;>
        simp [List.filter_cons, hpr, hb, List.append_assoc]

lemma searchLoop_step_full (server : Nat → SearchResp) (n page reqs : Nat)
    (acc : List SearchItem) (hs : (server page).status = 200)
    (hl : (server page).items.length = 100) :
    PrAnalytics.searchLoop server (n + 1) page acc reqs
      = PrAnalytics.searchLoop server n (page + 1)
          (acc ++ (server page).items) (reqs + 1) := by
  have hne : (server page).items ≠ [] := by
    intro hnil; rw [hnil] at hl; simp at hl
  simp [PrAnalytics.searchLoop, hs, hl, List.isEmpty_eq_false.mpr hne,
    BugAnalytics.per_page]

lemma searchLoop_step_short (server : Nat → SearchResp) (n page reqs : Nat)
    (acc : List SearchItem) (hs : (server page).status = 200)
    (hne : (server page).items ≠ [])
    (hl : (server page).items.length < 100) :
    PrAnalytics.searchLoop server (n + 1) page acc reqs
      = some (Except.ok
          { items := acc ++ (server page).items, requests := reqs + 1 }) := by
  simp [PrAnalytics.searchLoop, hs, hl, List.isEmpty_eq_false.mpr hne,
    BugAnalytics.per_page]

lemma searchLoop_step_empty (server : Nat → SearchResp) (n page reqs : Nat)
    (acc : List SearchItem) (hs : (server page).status = 200)
    (he : (server page).items = []) :
    PrAnalytics.searchLoop server (n + 1) page acc reqs
      = some (Except.ok { items := acc, requests := reqs + 1 }) := by
  simp [PrAnalytics.searchLoop, hs, he]

lemma fetchLoop_nonbug_invariant (server : Nat → SearchResp) :
    ∀ (fuel page reqs : Nat) (acc : List SearchItem),
      (∀ i ∈ acc, BugAnalytics.has_bug_label i = false) →
      ∀ out : FetchOutcome,
        BugAnalytics.fetchLoop server (some false) fuel page acc reqs
            = some (Except.ok out) →
        ∀ i ∈ out.items, BugAnalytics.has_bug_label i = false := by
  intro fuel
  induction fuel with
  | zero =>
    intro page reqs acc hacc out h
    exact absurd h (by simp [BugAnalytics.fetchLoop])
  | succ n ih =>
    intro page reqs acc hacc out h
    simp only [BugAnalytics.fetchLoop] at h
    split at h
    · simp at h
    · split at h
      · simp at h
      · split at h
        · obtain rfl : { items := acc, requests := reqs + 1 : FetchOutcome }
              = out := by simpa using h
          exact hacc
        · have hfilter :
              ∀ i ∈ acc ++ (server page).items.filter
                  (fun item => !(BugAnalytics.has_bug_label item)),
                BugAnalytics.has_bug_label i = false := by
            intro i hi
            rcases List.mem_append.mp hi with hi | hi
            · exact hacc i hi
            · simpa using (List.mem_filter.mp hi).2
          rw [if_pos (show ((some false : Option Bool) == some false) = true
            from rfl)] at h
          split at h
          · obtain rfl :
                { items := acc ++ (server page).items.filter
                    (fun item => !(BugAnalytics.has_bug_label item)),
                  requests := reqs + 1 : FetchOutcome } = out := by
              simpa using h
            exact hfilter
          · exact ih (page + 1) (reqs + 1) _ hfilter out h

/-! ## Claim theorems -/

/-- Claim C6, counterexample: the string `2024-1-5` is not in the strict
`YYYY-MM-DD` format (its month and day are single digits), yet
`validate_date` accepts it and returns it unchanged — so the claim that
every string outside that format raises a parameter error is false. -/
theorem validate_date_strict_counterexample :
    specFormatYmd "2024-1-5" = false
      ∧ validate_date "2024-1-5" = Except.ok "2024-1-5" :=
  ⟨rfl, rfl⟩

/-- Claim C6, amended: every strict `YYYY-MM-DD` string denoting a valid
calendar date is accepted by `validate_date` and returned unchanged, and
every string whose parse fails raises the parameter error and is in
particular not in the strict format; the code is more lenient than the
claim only in that it also accepts months and days written with a single
digit. -/
theorem validate_date_amended (s : String) :
    (specFormatYmd s = true → validate_date s = Except.ok s)
      ∧ (strptimeYmd s = false →
          validate_date s
              = Except.error
                  ("Data non valida: " ++ s ++ ". Usa il formato YYYY-MM-DD")
            ∧ specFormatYmd s = false) := by
  constructor
  · intro h
    unfold validate_date
    rw [strict_implies_strptime s h]
    simp
  · intro h
    constructor
    · unfold validate_date
      rw [h]
      simp
    · cases hspec : specFormatYmd s
      · rfl
      · rw [strict_implies_strptime s hspec] at h
        exact Bool.noConfusion h

/-- Claim C6, witness: a strict date is accepted unchanged, and a
rejected string is indeed outside the strict format. -/
theorem validate_date_amended_witness :
    validate_date "2024-03-15" = Except.ok "2024-03-15"
      ∧ specFormatYmd "not-a-date" = false :=
  ⟨(validate_date_amended "2024-03-15").1 (by decide),
   ((validate_date_amended "not-a-date").2 (by decide)).2⟩

/-- Claim C7, counterexample: `format_pr` never falls back to the native
close timestamp: on a closed item with a native close timestamp and no
merge timestamp, the reshaped record's closing timestamp is empty instead
of the item's `closed_at`, contradicting the claim for the merged-PR
reshaping. -/
theorem format_pr_closed_at_counterexample :
    BugAnalytics.mergedAtOf itemClosedNoMerge = ""
      ∧ itemClosedNoMerge.closed_at = "2024-01-02T00:00:00Z"
      ∧ (BugAnalytics.format_pr itemClosedNoMerge).closed_at = ""
      ∧ (BugAnalytics.format_pr itemClosedNoMerge).closed_at
          ≠ itemClosedNoMerge.closed_at :=
  ⟨rfl, rfl, rfl, by decide⟩

/-- Claim C7, amended: both reshapers derive the repository name as the
last path segment of the item's repository API URL; the issue reshaper's
single closing timestamp is the merge timestamp when one is present and
the native close timestamp otherwise, while the merged-PR reshaper's
closing timestamp is always the merge timestamp (empty when absent, with
no fallback to the native close timestamp). -/
theorem reshaping_repo_and_closing_timestamp (item : SearchItem) :
    (BugAnalytics.format_issue item).repo = lastSegment item.repository_url
      ∧ (BugAnalytics.format_pr item).repo = lastSegment item.repository_url
      ∧ (BugAnalytics.format_issue item).closed_at
          = (if BugAnalytics.mergedAtOf item = "" then item.closed_at
             else BugAnalytics.mergedAtOf item)
      ∧ (BugAnalytics.format_pr item).closed_at
          = BugAnalytics.mergedAtOf item := by
  refine ⟨?_, ?_, ?_, rfl⟩
  · exact repo_if_eq_lastSegment item.repository_url
  · exact repo_if_eq_lastSegment item.repository_url
  · show pyOr (BugAnalytics.mergedAtOf item) item.closed_at = _
    by_cases h : BugAnalytics.mergedAtOf item = "" <;> simp [pyOr, h]

/-- Claim C10: an explicitly passed empty-string token behaves exactly
like an absent token: the session builder falls back to the GITHUB_TOKEN
environment variable, fails with the missing-credentials error when that
variable is also unset or empty, and otherwise builds the session from
the environment token. -/
theorem empty_token_falls_back_to_env (env : Option String) (ua : String) :
    get_github_session (some "") env ua = get_github_session none env ua
      ∧ (pyFalsyOpt env = true →
          get_github_session (some "") env ua = Except.error missingTokenMsg)
      ∧ (∀ s : String, env = some s → s ≠ "" →
          get_github_session (some "") env ua
            = Except.ok
                { authorization := "Bearer " ++ s
                  accept := "application/vnd.github+json"
                  apiVersion := "2022-11-28"
                  userAgent := ua }) := by
  refine ⟨rfl, ?_, ?_⟩
  · intro h
    cases env with
    | none => rfl
    | some s =>
      have hs : s = "" := by simpa [pyFalsyOpt] using h
      subst hs
      rfl
  · intro s henv hs
    subst henv
    simp [get_github_session, pyFalsyOpt, hs, Option.getD]

/-- Claim C10, witness: with an empty explicit token and a non-empty
environment token the session is built from the environment token. -/
theorem empty_token_falls_back_to_env_witness :
    get_github_session (some "") (some "tok") "bug-analytics-script"
      = Except.ok
          { authorization := "Bearer tok"
            accept := "application/vnd.github+json"
            apiVersion := "2022-11-28"
            userAgent := "bug-analytics-script" } :=
  (empty_token_falls_back_to_env (some "tok") "bug-analytics-script").2.2
    "tok" rfl (by decide)

/-- Claim C3: `analyze_prs` places the pull requests whose fetched review
states contain `"CHANGES_REQUESTED"` into `bocciate_poi_approvate` — in
server order — and all the other pull requests into `senza_bocciature`;
membership of `"CHANGES_REQUESTED"` in the state set is all that is
tested (any review order, any accompanying states, and the empty review
list all behave accordingly). -/
theorem analyze_prs_buckets_by_changes_requested
    (fetchRev : String → PrAnalytics.ReviewResp) (items : List SearchItem) :
    (PrAnalytics.analyze_prs fetchRev items).bocciate_poi_approvate
        = (items.filter fun item =>
            item.pull_request.isSome
              && PrAnalytics.hasChangesRequested fetchRev item).map
            PrAnalytics.prDataOf
      ∧ (PrAnalytics.analyze_prs fetchRev items).senza_bocciature
        = (items.filter fun item =>
            item.pull_request.isSome
              && !(PrAnalytics.hasChangesRequested fetchRev item)).map
            PrAnalytics.prDataOf := by
  unfold PrAnalytics.analyze_prs
  rw [analyzeLoop_eq]
  simp

/-- Claim C9: `analyze_prs` reports `totale` as the sum of the two bucket
lengths, which equals the number of fetched items carrying a
`pull_request` field; an item lacking that field is counted nowhere, so
whenever one is present `totale` is strictly smaller than the number of
items the search returned. -/
theorem analyze_prs_totale_invariant
    (fetchRev : String → PrAnalytics.ReviewResp) (items : List SearchItem) :
    ((PrAnalytics.analyze_prs fetchRev items).totale
        = (PrAnalytics.analyze_prs fetchRev items).senza_bocciature.length
          + (PrAnalytics.analyze_prs fetchRev items).bocciate_poi_approvate.length)
      ∧ ((PrAnalytics.analyze_prs fetchRev items).totale
        = (items.filter fun item => item.pull_request.isSome).length)
      ∧ ∀ item ∈ items, item.pull_request = none →
          (PrAnalytics.analyze_prs fetchRev items).totale < items.length := by
  have hsum :
      (PrAnalytics.analyze_prs fetchRev items).totale
        = (items.filter fun item => item.pull_request.isSome).length := by
    unfold PrAnalytics.analyze_prs
    rw [analyzeLoop_eq]
    simpa using
      length_filter_split (fun item : SearchItem => item.pull_request.isSome)
        (fun item => PrAnalytics.hasChangesRequested fetchRev item) items
  refine ⟨?_, hsum, ?_⟩
  · unfold PrAnalytics.analyze_prs
    rw [analyzeLoop_eq]
  · intro item hmem hpr
    rw [hsum]
    exact List.length_filter_lt_length_iff_exists.mpr
      ⟨item, hmem, by simp [hpr]⟩

/-- Claim C9, witness: a single returned item with no `pull_request`
field makes `totale` strictly smaller than the number of returned
items. -/
theorem analyze_prs_totale_invariant_witness :
    (PrAnalytics.analyze_prs reviewsAlwaysEmpty [plainItem]).totale
      < [plainItem].length :=
  (analyze_prs_totale_invariant reviewsAlwaysEmpty [plainItem]).2.2 plainItem
    (by simp) rfl

/-- Claim C8: a non-200 response from the auxiliary reviews request
yields the empty review list for that pull request instead of a fatal
error, and the analysis still places every pull-request-bearing item into
one of the two buckets whatever the review endpoint answers — one
unfetchable review list never aborts the analysis of the remaining pull
requests. -/
theorem review_fetch_degrades_to_empty :
    (∀ (fetchRev : String → PrAnalytics.ReviewResp) (pr_api_url : String),
        (fetchRev (rstripSlash pr_api_url ++ "/reviews")).status ≠ 200 →
        PrAnalytics.get_reviews_for_pr fetchRev pr_api_url = [])
      ∧ ∀ (fetchRev : String → PrAnalytics.ReviewResp)
          (items : List SearchItem) (item : SearchItem),
          item ∈ items → item.pull_request.isSome = true →
          PrAnalytics.prDataOf item
              ∈ (PrAnalytics.analyze_prs fetchRev items).senza_bocciature
            ∨ PrAnalytics.prDataOf item
              ∈ (PrAnalytics.analyze_prs fetchRev items).bocciate_poi_approvate := by
  constructor
  · intro fetchRev pr_api_url h
    unfold PrAnalytics.get_reviews_for_pr
    simp [h]
  · intro fetchRev items item hmem hsome
    unfold PrAnalytics.analyze_prs
    rw [analyzeLoop_eq]
    cases hb : PrAnalytics.hasChangesRequested fetchRev item
    · left
      simp only [List.nil_append]
      exact List.mem_map_of_mem _ (List.mem_filter.mpr ⟨hmem, by simp [hsome, hb]⟩)
    · right
      simp only [List.nil_append]
      exact List.mem_map_of_mem _ (List.mem_filter.mpr ⟨hmem, by simp [hsome, hb]⟩)

/-- Claim C8, witness: with a review endpoint that always answers 404,
the review list comes back empty and the lone pull request is still
classified into a bucket. -/
theorem review_fetch_degrades_to_empty_witness :
    PrAnalytics.get_reviews_for_pr reviewsAlways404 "u" = []
      ∧ (PrAnalytics.prDataOf itemWithPr
            ∈ (PrAnalytics.analyze_prs reviewsAlways404
                [itemWithPr]).senza_bocciature
          ∨ PrAnalytics.prDataOf itemWithPr
            ∈ (PrAnalytics.analyze_prs reviewsAlways404
                [itemWithPr]).bocciate_poi_approvate) :=
  ⟨review_fetch_degrades_to_empty.1 reviewsAlways404 "u" (by decide),
   review_fetch_degrades_to_empty.2 reviewsAlways404 [itemWithPr] itemWithPr
     (by simp) rfl⟩

/-- Claim C5: in every classification result of pipeline 1, every record
of the two `aperti` buckets has lifecycle state `"open"` — no closed item
ever appears there, regardless of any other field. -/
theorem open_buckets_only_open_items
    (bug_aperti non_bug_aperti bug_chiusi non_bug_chiusi : List SearchItem)
    (from_date to_date : String) (rec : BugAnalytics.FormattedItem)
    (hmem :
      rec ∈ (BugAnalytics.analyze_issues bug_aperti non_bug_aperti bug_chiusi
              non_bug_chiusi from_date to_date).bug.aperti
        ∨ rec ∈ (BugAnalytics.analyze_issues bug_aperti non_bug_aperti
                  bug_chiusi non_bug_chiusi from_date to_date).non_bug.aperti) :
    rec.state = "open" := by
  rcases hmem with h | h <;>
  · simp only [BugAnalytics.analyze_issues, List.mem_map, List.mem_filter] at h
    obtain ⟨item, ⟨_, hopen⟩, rfl⟩ := h
    simpa [BugAnalytics.format_issue] using hopen

/-- Claim C5, witness: a concrete open bug issue lands in the bug
`aperti` bucket with state `"open"`. -/
theorem open_buckets_only_open_items_witness :
    (BugAnalytics.format_issue bugItem).state = "open" :=
  open_buckets_only_open_items [bugItem] [] [] [] "2024-01-01" "2024-01-31"
    (BugAnalytics.format_issue bugItem) (Or.inl (by decide))

/-- Claim C2: for a pipeline-2 search endpoint returning successive pages
of sizes 100, 100, 37 with status 200, the fetcher issues exactly 3
requests and returns the 237 items in server order; for an endpoint whose
first page is empty with status 200 it issues exactly 1 request and
returns the empty list rather than an error (any fuel covering the
requests gives the same result). -/
theorem pr_pagination_exhaustion :
    (∀ (server : Nat → SearchResp) (fuel : Nat), 3 ≤ fuel →
        (server 1).status = 200 → (server 1).items.length = 100 →
        (server 2).status = 200 → (server 2).items.length = 100 →
        (server 3).status = 200 → (server 3).items.length = 37 →
        PrAnalytics.search_merged_prs server fuel
          = some (Except.ok
              { items := (server 1).items ++ (server 2).items
                  ++ (server 3).items
                requests := 3 }))
      ∧ ∀ (server : Nat → SearchResp) (fuel : Nat), 1 ≤ fuel →
          (server 1).status = 200 → (server 1).items = [] →
          PrAnalytics.search_merged_prs server fuel
            = some (Except.ok { items := [], requests := 1 }) := by
  constructor
  · intro server fuel hfuel h1s h1l h2s h2l h3s h3l
    obtain ⟨k, rfl⟩ : ∃ k, fuel = k + 1 + 1 + 1 := ⟨fuel - 3, by omega⟩
    have hne3 : (server 3).items ≠ [] := by
      intro hnil; rw [hnil] at h3l; simp at h3l
    unfold PrAnalytics.search_merged_prs
    rw [searchLoop_step_full server (k + 1 + 1) 1 0 [] h1s h1l,
      searchLoop_step_full server (k + 1) 2 (0 + 1) ([] ++ (server 1).items)
        h2s h2l,
      searchLoop_step_short server k 3 (0 + 1 + 1)
        ([] ++ (server 1).items ++ (server 2).items) h3s hne3
        (by rw [h3l]; omega)]
    simp [List.append_assoc]
  · intro server fuel hfuel h1s h1e
    obtain ⟨k, rfl⟩ : ∃ k, fuel = k + 1 := ⟨fuel - 1, by omega⟩
    unfold PrAnalytics.search_merged_prs
    rw [searchLoop_step_empty server k 1 0 [] h1s h1e]

/-- Claim C2, witness: concrete servers with pages of sizes 100, 100, 37
and with an empty first page. -/
theorem pr_pagination_exhaustion_witness :
    PrAnalytics.search_merged_prs serverPages100_100_37 3
        = some (Except.ok
            { items := (serverPages100_100_37 1).items
                ++ (serverPages100_100_37 2).items
                ++ (serverPages100_100_37 3).items
              requests := 3 })
      ∧ PrAnalytics.search_merged_prs serverEmptyFirstPage 1
        = some (Except.ok { items := [], requests := 1 }) :=
  ⟨pr_pagination_exhaustion.1 serverPages100_100_37 3 (by decide) rfl
      (by simp [serverPages100_100_37]) rfl
      (by simp [serverPages100_100_37]) rfl
      (by simp [serverPages100_100_37]),
   pr_pagination_exhaustion.2 serverEmptyFirstPage 1 (by decide) rfl rfl⟩

/-- Claim C4: an item is classified as a bug exactly when some label name
equals `"bug"` case-insensitively, and the pipeline-1 non-bug fetch
(`search_issues` with `is_bug = False`) never returns a bug-labeled
item. -/
theorem bug_classification_case_insensitive :
    (∀ item : SearchItem,
        BugAnalytics.has_bug_label item = true
          ↔ ∃ l ∈ item.labels, pyLower l.name = "bug")
      ∧ ∀ (server : Nat → SearchResp) (fuel : Nat) (out : FetchOutcome),
          BugAnalytics.search_issues server (some false) fuel
              = some (Except.ok out) →
          ∀ i ∈ out.items, BugAnalytics.has_bug_label i = false := by
  constructor
  · intro item
    simp [BugAnalytics.has_bug_label, List.any_eq_true]
  · intro server fuel out h
    exact fetchLoop_nonbug_invariant server fuel 1 0 [] (by simp) out h

/-- Claim C4, witness: an uppercase `BUG` label counts as bug, and on a
concrete run the non-bug fetch returns only the unlabeled item. -/
theorem bug_classification_case_insensitive_witness :
    BugAnalytics.has_bug_label itemBugUpper = true
      ∧ BugAnalytics.has_bug_label plainItem = false :=
  ⟨(bug_classification_case_insensitive.1 itemBugUpper).mpr
      ⟨{ name := "BUG" }, by simp [itemBugUpper], by decide⟩,
   bug_classification_case_insensitive.2 serverBugAndPlain 5
     { items := [plainItem], requests := 1 } rfl plainItem (by simp)⟩

/-- Claim C1: the pipeline-1 fetchers do not decide whether to fetch the
next page from the server-returned page length.  On the non-bug fetch
the code filters out bug-labeled items before checking
`len(items) < per_page`, so a full server page of 100 items from which
one bug item is filtered (99 < 100) is mistaken for exhaustion: the loop
stops after a single request although page 2 is non-empty, contradicting
both the inline comment ("fewer than per_page items means there are no
further pages", true only of the raw page) and the documented algorithm.
This evaluates the fetcher at that failing input. -/
theorem nonbug_fetch_stops_on_filtered_page :
    (serverOneBugThenMore 1).items.length = 100
      ∧ (serverOneBugThenMore 2).items ≠ []
      ∧ BugAnalytics.search_issues serverOneBugThenMore (some false) 10
          = some (Except.ok
              { items := List.replicate 99 plainItem, requests := 1 })
      ∧ (List.replicate 99 plainItem).length = 99 :=
  ⟨by simp [serverOneBugThenMore], by simp [serverOneBugThenMore], rfl,
    by simp⟩

end GithubAnalizer
